import Mathlib

/-!
# Verification of the pandakota deck-compilation core

This file gives a shallow embedding in Lean 4 of the deck-compilation
subsystem of the pandakota package (`pandakota/input/variables.py`,
`pandakota/input/methods.py`, `pandakota/input/derivatives.py`,
`pandakota/input/deck.py`) and proves the specified properties about it.

Modelling conventions:
* Python strings become `String`; Python `None`-or-`str` becomes `Option String`.
* Python floats that only ever flow into text output are carried as the strings
  Python's `str()` renders them to (e.g. `1e-05`), since only their text enters
  the serialization; floats that are computed with (the uniform variable's
  bounds) are carried as exact rationals `ℚ`.
* Python exceptions become an explicit error value (`PyError`) returned either
  in an `Except` result (for operations that raise before mutating anything) or
  alongside the post-call state, as `State × Option PyError`, for operations
  that can raise after already having mutated part of the state.
* `isinstance` checks that can only succeed at the embedded call sites are
  absorbed into the Lean types.
-/

set_option autoImplicit false

/-- Python exception values raised by the embedded code, tagged by the
exception class. -/
inductive PyError where
  | assertionError (msg : String)
  | keyError (key : String)
  | valueError (msg : String)
  | typeError (msg : String)
  deriving DecidableEq

/-- A run of `n` spaces. -/
def spaces (n : Nat) : String :=
  String.mk (List.replicate n ' ')

/-- Python `str.ljust(width)`: pad with spaces on the right up to `width`
characters; strings already at least `width` long are returned unchanged. -/
def ljust (s : String) (width : Nat) : String :=
  s ++ spaces (width - s.length)

/-- Python `str.rstrip()`: remove trailing whitespace. -/
def rstrip (s : String) : String :=
  String.mk (List.reverse (List.dropWhile Char.isWhitespace s.data.reverse))

/-- Python truthiness of a `None`-or-`str` value: `None` and the empty string
are falsy, every other string is truthy. -/
def truthyStr : Option String → Bool
  | none => false
  | some s => !s.isEmpty

/-- Python truthiness of a `None`-or-`int` value: `None` and `0` are falsy. -/
def truthyInt : Option Int → Bool
  | none => false
  | some i => i != 0

/-! ## `pandakota/input/variables.py` — serialization model

For serialization purposes a variable's numeric fields are carried as the
strings Python's `str()` renders them to; `variables.py` interpolates those
fields into f-strings and never computes with them on this path. -/

/-- The concrete `Variable` subclasses of `variables.py`.  `state` carries
whether its `dtype is str` (which switches the quoting of `elements`), and its
element already rendered; the numeric variants carry their fields as rendered
value strings. -/
inductive Variable where
  | state (key : String) (dtypeIsStr : Bool) (element : String)
  | normalUncertain (key : String) (mean : String) (std_dev : String)
  | uniformUncertain (key : String) (lower : String) (upper : String)
  | design (key : String) (lower : String) (upper : String) (initial : String)
  deriving DecidableEq

/-- The concrete subclass (`type(var)` in Python). -/
inductive VariableKind where
  | state
  | normalUncertain
  | uniformUncertain
  | design
  deriving DecidableEq

def Variable.kind : Variable → VariableKind
  | .state .. => .state
  | .normalUncertain .. => .normalUncertain
  | .uniformUncertain .. => .uniformUncertain
  | .design .. => .design

def Variable.key : Variable → String
  | .state k _ _ => k
  | .normalUncertain k _ _ => k
  | .uniformUncertain k _ _ => k
  | .design k _ _ _ => k

/-- `block_name` of each variable class.  `DesignVariable` inherits the base
class value `None` and is never serialized through the variables block; it is
rendered here as the empty string, which no embedded code path reads. -/
def VariableKind.block_name : VariableKind → String
  | .state => "discrete_state_set"
  | .normalUncertain => "normal_uncertain"
  | .uniformUncertain => "uniform_uncertain"
  | .design => ""

/-- `variables.py` tuple `TYPED_VARIABLES`: the classes the deck registers. -/
def TYPED_VARIABLES : List VariableKind :=
  [.state, .normalUncertain, .uniformUncertain]

/-- Python `str.replace(old, new)` for single characters, used by
`StateVariable._get_strings` as `.replace(' ', '"')`. -/
def replaceChar (s : String) (old new : Char) : String :=
  String.mk (s.data.map fun c => if c = old then new else c)

/-- Each variant's `_get_strings`: the ordered property-name/value-string
dictionary (Python dicts preserve insertion order). -/
def Variable._get_strings : Variable → List (String × String)
  | .state k isStr e =>
      [("descriptors", "\"" ++ k ++ "\""),
       ("elements", if isStr then replaceChar (" " ++ e ++ " ") ' ' '"'
                    else " " ++ e ++ " ")]
  | .normalUncertain k mean std_dev =>
      [("descriptors", "\"" ++ k ++ "\""),
       ("means", " " ++ mean ++ " "),
       ("std_deviations", " " ++ std_dev ++ " ")]
  | .uniformUncertain k lower upper =>
      [("descriptors", "\"" ++ k ++ "\""),
       ("lower_bounds", " " ++ lower ++ " "),
       ("upper_bounds", " " ++ upper ++ " ")]
  | .design k lower upper initial =>
      [("descriptors", "\"" ++ k ++ "\""),
       ("lower_bounds", " " ++ lower ++ " "),
       ("upper_bounds", " " ++ upper ++ " "),
       ("initial_point", " " ++ initial ++ " ")]

/-- `Variable.justify`: left-justify every value string to a common width of
2 plus the longest value string. -/
def Variable.justify (v : Variable) : List (String × String) :=
  let strings := v._get_strings
  let length := 2 + (strings.map fun p => p.2.length).foldl max 0
  strings.map fun p => (p.1, ljust p.2 length)

/-! ## `pandakota/input/variables.py` — mutable-state model of
`UniformUncertainVariable`

For the bound-mutation claims the uniform variable is modelled numerically:
bounds as exact rationals, the current `element` as `Option ℚ` (the base class
initialises `_element = None`).  The `element` property setter's
`isinstance(e, float)` check always succeeds on this path and is absorbed into
the type. -/

structure UniformUncertainVariable where
  key : String
  lower : ℚ
  upper : ℚ
  element : Option ℚ
  deriving DecidableEq

/-- `UniformUncertainVariable.__init__`: stores both bounds with no ordering
validation and leaves `_element` at the base-class `None`. -/
def UniformUncertainVariable.make (key : String) (lower upper : ℚ) :
    UniformUncertainVariable :=
  { key := key, lower := lower, upper := upper, element := none }

/-- `UniformUncertainVariable.__reset_element`: recompute the element as
`0.5*(self.upper + self.lower)`. -/
def UniformUncertainVariable.reset_element (v : UniformUncertainVariable) :
    UniformUncertainVariable :=
  { v with element := some (0.5 * (v.upper + v.lower)) }

/-- The `lower` property setter: reject `l >= upper` before mutating, else
store the bound and reset the element.  (The Python message interpolates the
current upper bound; the embedded message elides the number.) -/
def UniformUncertainVariable.set_lower (v : UniformUncertainVariable) (l : ℚ) :
    UniformUncertainVariable × Option PyError :=
  if l ≥ v.upper then
    (v, some (.valueError "lower must be < upper."))
  else
    ({ v with lower := l }.reset_element, none)

/-- The `upper` property setter: reject `u <= lower` before mutating, else
store the bound and reset the element. -/
def UniformUncertainVariable.set_upper (v : UniformUncertainVariable) (u : ℚ) :
    UniformUncertainVariable × Option PyError :=
  if u ≤ v.lower then
    (v, some (.valueError "upper must be > lower."))
  else
    ({ v with upper := u }.reset_element, none)

/-- One assignment to either bound of a uniform variable. -/
inductive BoundOp where
  | setLower (l : ℚ)
  | setUpper (u : ℚ)
  deriving DecidableEq

def UniformUncertainVariable.apply_op (v : UniformUncertainVariable) :
    BoundOp → UniformUncertainVariable × Option PyError
  | .setLower l => v.set_lower l
  | .setUpper u => v.set_upper u

/-- Run a sequence of bound assignments; a failed assignment raises before
mutating, so the state it leaves behind is its input state. -/
def run_ops (v : UniformUncertainVariable) : List BoundOp → UniformUncertainVariable
  | [] => v
  | op :: rest => run_ops (v.apply_op op).1 rest

/-- Every assignment in the sequence succeeds (raises no exception) at the
point it is executed. -/
def ops_succeed (v : UniformUncertainVariable) : List BoundOp → Prop
  | [] => True
  | op :: rest => (v.apply_op op).2 = none ∧ ops_succeed (v.apply_op op).1 rest

/-! ## `pandakota/input/methods.py`

`Deck` reads only four things from its method: the static capability flags
`requires_gradients`/`requires_hessians`, the rendered `to_string()` block, and
the responses-block keyword `function_key`.  That interface is embedded as a
record; the concrete method classes the claims exercise are embedded below it. -/

structure Method where
  requires_gradients : Bool
  requires_hessians : Bool
  /-- Modelled from the spec: `Method.function_key`, the keyword of the
  responses-block count line (`objective_functions` in the spec's literal
  responses scenario, `response_functions` in the repository's sampling test),
  is referenced by `Deck._format_output_functions` but not defined anywhere in
  the available sources. -/
  function_key : String
  /-- The Python class name, interpolated into `Deck._format_method` errors. -/
  class_name : String
  /-- The result of the instance's `to_string()`. -/
  to_string : String
  deriving DecidableEq

/-- `methods._check_input`: validate an enum-valued attribute.  A falsy
candidate (`None` or the empty string — the only candidate types occurring at
the embedded call sites) is returned unchanged with no validation at all;
otherwise the candidate is lower-cased (when `enforce_lowercase`), checked for
membership in `allowed`, and its prerequisite attributes (given with their
truthiness) are checked to all be truthy. -/
def _check_input (attr : String) (allowed : List String) (candidate : Option String)
    (enforce_lowercase : Bool) (populated_prereqs : List (String × Bool)) :
    Except PyError (Option String) :=
  if truthyStr candidate = false then
    .ok candidate
  else
    let candidate := if enforce_lowercase then candidate.map String.toLower else candidate
    if candidate.any (fun s => allowed.contains s) = false then
      .error (.assertionError (attr ++ " must be one of the allowed values"))
    else if populated_prereqs.any (fun kv => kv.2 = false) then
      .error (.assertionError (attr ++ " requires prerequisite attributes to be set"))
    else
      .ok candidate

/-- `LatinHypercubeSampling` state: the `Sampling` fields it uses.  The
`isinstance(…, int)` assertions are absorbed into the `Int` types. -/
structure LatinHypercubeSampling where
  nsamples : Int
  seed : Int
  refinements : List Int
  deriving DecidableEq

/-- `Sampling.__init__` for `LatinHypercubeSampling`: requires
`nsamples > 0`, stores the fields, starts with no refinements. -/
def LatinHypercubeSampling.make (nsamples seed : Int) :
    Except PyError LatinHypercubeSampling :=
  if nsamples > 0 then
    .ok { nsamples := nsamples, seed := seed, refinements := [] }
  else
    .error (.assertionError "nsamples must be an integer > 0.")

/-- The `allowed` value `LatinHypercubeSampling.add_refinement` computes: the
initial sample count if no refinement exists yet, else double the last one. -/
def LatinHypercubeSampling.next_allowed (m : LatinHypercubeSampling) : Int :=
  match m.refinements.getLast? with
  | none => m.nsamples
  | some r => 2 * r

/-- `LatinHypercubeSampling.add_refinement`: with no argument, append the
`allowed` value; an explicit value must equal `allowed` or the call raises
without appending (the base-class append is only reached on success). -/
def LatinHypercubeSampling.add_refinement (m : LatinHypercubeSampling)
    (refinement_samples : Option Int) : Except PyError LatinHypercubeSampling :=
  let allowed := m.next_allowed
  let rs := refinement_samples.getD allowed
  if rs ≠ allowed then
    .error (.valueError
      "LHS Refinement Samples must be exactly double the previous number of samples.")
  else
    .ok { m with refinements := m.refinements ++ [rs] }

/-! `JegaOptimize` and its class-level enum sets. -/

def JegaOptimize.replacement_types : List String :=
  ["elitist", "roulette_wheel", "unique_roulette_wheel"]

def JegaOptimize.convergence_types : List String := []

def JegaOptimize.initialization_types : List String :=
  ["simple_random", "unique_random", "flat_file"]

def JegaOptimize.crossover_types : List String :=
  ["multi_point_binary", "multi_point_real", "multi_point_parameterized_binary",
   "shuffle_random"]

def JegaOptimize.mutation_types : List String :=
  ["replace_uniform", "bit_random", "offset_uniform", "offset_cauchy",
   "offset_normal"]

/-- `JegaOptimize.check_replacement_type` (the enum sets are passed explicitly
because subclasses override them on `cls`). -/
def JegaOptimize.check_replacement_type (replacement_types : List String)
    (rt : Option String) : Except PyError (Option String) :=
  _check_input "replacement_type" replacement_types rt true []

def JegaOptimize.check_convergence_type (convergence_types : List String)
    (ct : Option String) : Except PyError (Option String) :=
  _check_input "convergence_type" convergence_types ct true []

/-- `JegaOptimize.check_initialization_type`: a truthy candidate equal (case
insensitively) to `flat_file` makes `flat_file_path` a prerequisite. -/
def JegaOptimize.check_initialization_type (initialization_types : List String)
    (it : Option String) (flat_file_path : Option String) :
    Except PyError (Option String) :=
  let prereqs :=
    if truthyStr it ∧ (it.getD "").toLower = "flat_file" then
      [("flat_file_path", truthyStr flat_file_path)]
    else []
  _check_input "initialization_type" initialization_types it true prereqs

def JegaOptimize.check_crossover_type (crossover_types : List String)
    (cot : Option String) : Except PyError (Option String) :=
  _check_input "crossover_type" crossover_types cot true []

def JegaOptimize.check_mutation_type (mutation_types : List String)
    (mt : Option String) : Except PyError (Option String) :=
  _check_input "mutation_type" mutation_types mt true []

/-- The instance state a constructed `JegaOptimize` stores. -/
structure JegaOptimize where
  max_iterations : Option Int
  max_function_evaluations : Option Int
  convergence_tolerance : Option ℚ
  population_size : Option Int
  seed : Int
  flat_file_path : Option String
  replacement_type : Option String
  convergence_type : Option String
  initialization_type : Option String
  crossover_type : Option String
  crossover_rate : Option ℚ
  num_parents : Option Int
  num_offspring : Option Int
  mutation_type : Option String
  mutation_rate : Option ℚ
  deriving DecidableEq

/-- `JegaOptimize.__init__` (running `Optimize.__init__` first): validates
`max_function_evaluations > max_iterations` when both are given, then runs the
enum checks in source order and stores their results; `num_parents` and
`num_offspring` may only be set for crossover type `shuffle_random`. -/
def JegaOptimize.make (max_iterations max_function_evaluations : Option Int)
    (convergence_tolerance : Option ℚ) (population_size : Option Int) (seed : Int)
    (replacement_type convergence_type initialization_type crossover_type : Option String)
    (crossover_rate : Option ℚ) (num_parents num_offspring : Option Int)
    (mutation_type : Option String) (mutation_rate : Option ℚ)
    (flat_file_path : Option String) : Except PyError JegaOptimize := do
  match max_function_evaluations, max_iterations with
  | some fe, some it =>
      if ¬ (fe > it) then
        throw (.assertionError
          "The maximum number of function evaluations must exceed the maximum number of iterations.")
  | _, _ => pure ()
  let rt ← JegaOptimize.check_replacement_type JegaOptimize.replacement_types replacement_type
  let ct ← JegaOptimize.check_convergence_type JegaOptimize.convergence_types convergence_type
  let it2 ← JegaOptimize.check_initialization_type JegaOptimize.initialization_types
    initialization_type flat_file_path
  let cot ← JegaOptimize.check_crossover_type JegaOptimize.crossover_types crossover_type
  if cot ≠ some "shuffle_random" then
    if ¬ (num_parents = none ∧ num_offspring = none) then
      throw (.assertionError
        "Parameters num_parents and num_offspring may only be set for crossover_type shuffle_random.")
  let mt ← JegaOptimize.check_mutation_type JegaOptimize.mutation_types mutation_type
  return { max_iterations := max_iterations
           max_function_evaluations := max_function_evaluations
           convergence_tolerance := convergence_tolerance
           population_size := population_size
           seed := seed
           flat_file_path := flat_file_path
           replacement_type := rt
           convergence_type := ct
           initialization_type := it2
           crossover_type := cot
           crossover_rate := crossover_rate
           num_parents := num_parents
           num_offspring := num_offspring
           mutation_type := mt
           mutation_rate := mutation_rate }

/-! ## `pandakota/input/derivatives.py` -/

def DERIVATIVE_NONE : String := "no"

def GRADIENT_TYPES : List String := ["no", "numerical", "analytic", "mixed"]

def GRADIENT_SOURCES : List String := ["dakota", "vendor"]

def INTERVAL_TYPES : List String := ["central", "forward"]

def HESSIAN_TYPES : List String := ["quasi"] ++ GRADIENT_TYPES

def HESSIAN_QUASI_APPROXIMATIONS : List String := ["bfgs", "sr1"]

def HESSIAN_STEP_SCALINGS : List String := ["relative", "absolute", "bounds"]

/-- Membership of a `None`-or-`str` value in `{None} | allowed`. -/
def optMem (c : Option String) (allowed : List String) : Bool :=
  match c with
  | none => true
  | some s => allowed.contains s

/-- `derivatives._format_id`: empty id lists render as nothing, non-empty ones
as an indented `key` line with space-joined integers. -/
def _format_id (id_list : List Int) (key : String) : String :=
  if id_list.isEmpty then ""
  else "\n\t\t" ++ key ++ " " ++ String.intercalate " " (id_list.map toString)

/-- `derivatives._format_fd_step_size` (step sizes carried as their rendered
strings). -/
def _format_fd_step_size (fd_list : List String) (key : String) : String :=
  if fd_list.isEmpty then ""
  else "\n\t\t" ++ key ++ " " ++ String.intercalate " " fd_list

/-- `Derivatives._no`: the tab-indented `no_<key>` line (note: no leading
newline, unlike every populated branch). -/
def Derivatives._no (key : String) : String :=
  "\t" ++ DERIVATIVE_NONE ++ "_" ++ key

/-- `Derivatives.to_string`: the shared part, parameterized over the subclass
`key`. -/
def Derivatives.to_string_base (derivative_type : Option String)
    (id_numerical id_analytic : List Int) (key : String) : String :=
  if truthyStr derivative_type = false then
    Derivatives._no key
  else
    "\n\t" ++ derivative_type.getD "" ++ "_" ++ key
      ++ _format_id id_analytic ("id_analytic_" ++ key)
      ++ _format_id id_numerical ("id_numerical_" ++ key)

/-- `Gradients` instance state.  `Derivatives.__init__` stores the
(possibly normalized) `derivative_type` plus the step sizes and id lists;
`Gradients.__init__` adds `method_source` and `interval_type`. -/
structure Gradients where
  derivative_type : Option String
  method_source : Option String
  interval_type : Option String
  fd_step_size : List String
  id_numerical : List Int
  id_analytic : List Int
  deriving DecidableEq

/-- `Gradients.__init__`: validate the three enum fields against
`{None} | <set>`, then run `Derivatives.__init__`, which normalizes a
`gradient_type` equal to the `"no"` sentinel to `None`. -/
def Gradients.make (gradient_type method_source interval_type : Option String)
    (fd_step_size : List String) (id_numerical id_analytic : List Int) :
    Except PyError Gradients :=
  if optMem gradient_type GRADIENT_TYPES = false then
    .error (.assertionError "gradient_type must be one of GRADIENT_TYPES")
  else if optMem method_source GRADIENT_SOURCES = false then
    .error (.assertionError "method_source must be one of GRADIENT_SOURCES")
  else if optMem interval_type INTERVAL_TYPES = false then
    .error (.assertionError "interval_type must be one of INTERVAL_TYPES")
  else
    let dt := if gradient_type = some DERIVATIVE_NONE then none else gradient_type
    .ok { derivative_type := dt, method_source := method_source,
          interval_type := interval_type, fd_step_size := fd_step_size,
          id_numerical := id_numerical, id_analytic := id_analytic }

/-- `Gradients.to_string`: the `no_gradients` line when the stored type is
falsy, otherwise the shared header plus `method_source`, `interval_type` and
finite-difference step-size lines. -/
def Gradients.to_string (g : Gradients) : String :=
  if truthyStr g.derivative_type = false then
    Derivatives._no "gradients"
  else
    Derivatives.to_string_base g.derivative_type g.id_numerical g.id_analytic "gradients"
      ++ (if truthyStr g.method_source then
            "\n\t\tmethod_source " ++ g.method_source.getD "" else "")
      ++ (if truthyStr g.interval_type then
            "\n\t\tinterval_type " ++ g.interval_type.getD "" else "")
      ++ _format_fd_step_size g.fd_step_size "fd_gradient_step_size"

/-- `Hessians` instance state. -/
structure Hessians where
  derivative_type : Option String
  interval_type : Option String
  step_scaling : Option String
  quasi_approximation : Option String
  fd_step_size : List String
  id_numerical : List Int
  id_analytic : List Int
  id_quasi : List Int
  damped : Bool
  deriving DecidableEq

/-- `Hessians.__init__`: validate the enum fields, require
`quasi_approximation` exactly when a quasi or mixed Hessian has quasi ids
(and forbid it otherwise), allow `damped` only with BFGS, then run
`Derivatives.__init__` with its `"no"`-to-`None` normalization. -/
def Hessians.make
    (hessian_type interval_type step_scaling quasi_approximation : Option String)
    (fd_step_size : List String) (id_numerical id_analytic id_quasi : List Int)
    (damped : Bool) : Except PyError Hessians := do
  if optMem hessian_type HESSIAN_TYPES = false then
    throw (.assertionError "hessian_type must be one of HESSIAN_TYPES")
  if optMem interval_type INTERVAL_TYPES = false then
    throw (.assertionError "interval_type must be one of INTERVAL_TYPES")
  if optMem step_scaling HESSIAN_STEP_SCALINGS = false then
    throw (.assertionError "step_scaling must be one of HESSIAN_STEP_SCALINGS")
  if optMem quasi_approximation HESSIAN_QUASI_APPROXIMATIONS = false then
    throw (.assertionError
      "quasi_approximation must be one of HESSIAN_QUASI_APPROXIMATIONS")
  if (hessian_type = some "quasi" ∨ hessian_type = some "mixed")
      ∧ id_quasi ≠ [] then
    (if truthyStr quasi_approximation = false then
      throw (.assertionError "quasi_approximation is required using quasi hessians.")
    else pure ())
  else
    (if truthyStr quasi_approximation = true then
      throw (.assertionError "quasi_approximation may only be used when hessian_type=quasi.")
    else pure ())
  if damped ∧ quasi_approximation ≠ some "bfgs" then
    throw (.assertionError "damped BFGS is may only be used when quasi_approximation=bfgs.")
  let dt := if hessian_type = some DERIVATIVE_NONE then none else hessian_type
  return { derivative_type := dt, interval_type := interval_type,
           step_scaling := step_scaling, quasi_approximation := quasi_approximation,
           fd_step_size := fd_step_size, id_numerical := id_numerical,
           id_analytic := id_analytic, id_quasi := id_quasi, damped := damped }

/-- `Hessians.to_string`: the `no_hessians` line when the stored type is falsy,
otherwise the shared header plus the quasi-approximation suffix on the
`id_quasi_hessians` line (Python would raise a `TypeError` concatenating an
unset `quasi_approximation` there; on constructor-produced values with a quasi
or mixed type it is always set, and the embedding renders `None` as the empty
string on the remaining, constructor-unreachable combinations), the
step-scaling line, and the finite-difference step sizes. -/
def Hessians.to_string (h : Hessians) : String :=
  if truthyStr h.derivative_type = false then
    Derivatives._no "hessians"
  else
    Derivatives.to_string_base h.derivative_type h.id_numerical h.id_analytic "hessians"
      ++ (if h.id_quasi.isEmpty = false then
            _format_id h.id_quasi "id_quasi_hessians" ++ " "
              ++ h.quasi_approximation.getD ""
              ++ (if h.damped then " damped" else "")
          else "")
      ++ (if truthyStr h.step_scaling then
            "\n\t\t" ++ h.step_scaling.getD "" else "")
      ++ _format_fd_step_size h.fd_step_size "fd_hessian_step_size"

/-! ## `pandakota/input/deck.py` -/

/-- The `Deck` state: the method, the ordered function-name list (a bare
string is wrapped to a one-element list by `__init__`; the embedding takes the
list directly), the flat key registry `_all_variable_keys` (a Python set,
modelled as the list of keys in insertion order — only membership is ever
read), the three per-class insertion-ordered variable dictionaries of
`_typed_variables`, and the optional derivative settings. -/
structure Deck where
  method : Method
  functions : List String
  all_variable_keys : List String
  state_vars : List (String × Variable)
  normal_vars : List (String × Variable)
  uniform_vars : List (String × Variable)
  gradients : Option Gradients
  hessians : Option Hessians
  deriving DecidableEq

/-- `Deck.__init__` (the `method` property setter's `isinstance` check is
absorbed into the type). -/
def Deck.make (method : Method) (functions : List String) : Deck :=
  { method := method, functions := functions, all_variable_keys := [],
    state_vars := [], normal_vars := [], uniform_vars := [],
    gradients := none, hessians := none }

/-- The characters `_validate_descriptor` forbids in a descriptor:
space, double quote, single quote, comma. -/
def forbiddenDescriptorChars : List Char :=
  [' ', '"', Char.ofNat 39, ',']

/-- A descriptor passes the forbidden-character assertion. -/
def validDescriptor (s : String) : Bool :=
  !(s.data.any fun c => forbiddenDescriptorChars.contains c)

/-- The `_validate_descriptor` duplicate-key assertion message. -/
def dupMsg (descriptor : String) : String :=
  "A variable with the name " ++ descriptor ++ " already exists."

/-- The `_validate_descriptor` forbidden-character assertion message (the
Python f-string interpolates the descriptor itself). -/
def invalidMsg (descriptor : String) : String :=
  "The descriptor must not contain the characters: " ++ descriptor

/-- `Deck._typed_variables[kind]` for the registered classes.  The Python dict
holds entries only for the members of `TYPED_VARIABLES`; looking up any other
class raises `KeyError`, which `Deck.add_variable` below models explicitly —
no embedded code path reads the `design` case of this function. -/
def Deck.typed_variables (d : Deck) : VariableKind → List (String × Variable)
  | .state => d.state_vars
  | .normalUncertain => d.normal_vars
  | .uniformUncertain => d.uniform_vars
  | .design => []

/-- Association-list lookup (first binding wins), the semantics of one inner
dict of `_typed_variables`. -/
def alookup (k : String) : List (String × Variable) → Option Variable
  | [] => none
  | (k2, v) :: rest => if k2 = k then some v else alookup k rest

/-- `Deck.__getitem__` through `collections.ChainMap`: search the per-class
dictionaries in `TYPED_VARIABLES` order; `None` models the `KeyError` a missing
key raises (`Deck.get` returns the default instead). -/
def Deck.find? (d : Deck) (k : String) : Option Variable :=
  match alookup k d.state_vars with
  | some v => some v
  | none =>
    match alookup k d.normal_vars with
    | some v => some v
    | none => alookup k d.uniform_vars

/-- `Deck.add_variable`, including `_validate_descriptor`: assert no forbidden
character, assert the key is not yet registered, add the key to the flat key
set, then store the variable in the dictionary for its concrete class.  The
result is the post-call state together with the exception raised, if any: for
a class outside `TYPED_VARIABLES` the final dictionary lookup raises
`KeyError` after the key was already added to `_all_variable_keys`. -/
def Deck.add_variable (d : Deck) (var : Variable) : Deck × Option PyError :=
  if validDescriptor var.key = false then
    (d, some (.assertionError (invalidMsg var.key)))
  else if var.key ∈ d.all_variable_keys then
    (d, some (.assertionError (dupMsg var.key)))
  else
    let d' := { d with all_variable_keys := d.all_variable_keys ++ [var.key] }
    match var with
    | .state k dt e =>
        ({ d' with state_vars := d'.state_vars ++ [(k, .state k dt e)] }, none)
    | .normalUncertain k m s =>
        ({ d' with normal_vars := d'.normal_vars ++ [(k, .normalUncertain k m s)] }, none)
    | .uniformUncertain k lo hi =>
        ({ d' with uniform_vars := d'.uniform_vars ++ [(k, .uniformUncertain k lo hi)] }, none)
    | .design _ _ _ _ =>
        (d', some (.keyError "DesignVariable"))

/-- The dict-update step of `Deck._format_variable_type`'s inner loop:
`propline = proplines.get(prop, prop.ljust(16)); proplines[prop] = propline + val`
on an insertion-ordered dictionary. -/
def updateProplines : List (String × String) → String → String → List (String × String)
  | [], prop, val => [(prop, ljust prop 16 ++ val)]
  | (p, line) :: rest, prop, val =>
      if p = prop then (p, line ++ val) :: rest
      else (p, line) :: updateProplines rest prop val

/-- `Deck._format_variable_type`: skip a class with no instances, otherwise
accumulate each variable's justified property strings into aligned rows, and
emit the `<block_name>  <count>` header followed by the right-stripped rows. -/
def Deck._format_variable_type (d : Deck) (kind : VariableKind) : String :=
  let these := d.typed_variables kind
  if these.isEmpty then ""
  else
    let proplines := these.foldl
      (fun pls kv => kv.2.justify.foldl
        (fun pls2 pv => updateProplines pls2 pv.1 pv.2) pls) []
    let header := "\n\t" ++ kind.block_name ++ "  " ++ toString these.length
    let sep := "\n\t\t"
    let vars := String.intercalate sep (proplines.map fun pl => rstrip pl.2)
    header ++ sep ++ vars ++ "\n"

/-- `Deck._format_variables`: the `variables` header followed by each
registered class's sub-block in `TYPED_VARIABLES` order. -/
def Deck._format_variables (d : Deck) : String :=
  TYPED_VARIABLES.foldl (fun block k => block ++ d._format_variable_type k) "variables\n"

/-- `Deck._format_output_functions`: the `<function_key>  <count>` line and the
aligned `descriptors` line (note that the `ljust` width is the length of the
bare `function_key` while the padded string starts with a newline and a tab). -/
def Deck._format_output_functions (d : Deck) : String :=
  "\n\t" ++ d.method.function_key ++ "  " ++ toString d.functions.length
    ++ ljust "\n\tdescriptors" d.method.function_key.length ++ "  "
    ++ "  " ++ String.intercalate "  " d.functions

/-- `Deck._format_gradients`: the sentinel line when no `Gradients` instance is
set, otherwise the instance's own rendering. -/
def Deck._format_gradients (d : Deck) : String :=
  match d.gradients with
  | none => "\n\tno_gradients"
  | some g => g.to_string

/-- `Deck._format_hessians`. -/
def Deck._format_hessians (d : Deck) : String :=
  match d.hessians with
  | none => "\n\tno_hessians"
  | some h => h.to_string

/-- `Deck._format_responses`. -/
def Deck._format_responses (d : Deck) : String :=
  "responses" ++ d._format_output_functions
    ++ d._format_gradients ++ d._format_hessians ++ "\n"

/-- `Deck._format_method`: a method that requires gradients (resp. Hessians)
fails with a `ValueError` when no `Gradients` (resp. `Hessians`) instance is
set; an instance, once set, is always truthy. -/
def Deck._format_method (d : Deck) : Except PyError String :=
  if d.method.requires_gradients = true ∧ d.gradients = none then
    .error (.valueError
      ("Method " ++ d.method.class_name ++ " requires gradients to operate."))
  else if d.method.requires_hessians = true ∧ d.hessians = none then
    .error (.valueError
      ("Method " ++ d.method.class_name ++ " requires hessians to operate."))
  else
    .ok (d.method.to_string ++ "\n")

/-- `Deck._format_interface` as defined: three required parameters (the
id-interface line interpolates the package version, which lives in the
`_version` module not present in the sources and is taken as a parameter
here). -/
def Deck._format_interface (version driver : String) (asynchronous : Bool)
    (concurrency : Option Int) : String :=
  "interface"
    ++ "\n\tid_interface \"pandakota v" ++ version ++ "\""
    ++ "\n\tfork"
    ++ (if asynchronous then
          "\n\t\tasynchronous"
            ++ (if truthyInt concurrency then
                  "\n\t\t\tevaluation_concurrency = "
                    ++ toString ((concurrency.getD 0)) else "")
            ++ "\n\t\tanalysis_driver = \"" ++ driver ++ "\""
        else "")
    ++ "\n\tparameters_file = params.in"
    ++ "\n\tresults         = results.out"
    ++ "\n"

/-- `Deck.get_deck`: builds the comment header, formats the method block (the
point where a missing derivatives instance raises), and then executes
`self._format_interface(asynchronous, concurrency)` — a call that omits the
required `driver` argument of the three-parameter `Deck._format_interface`, so
Python raises a `TypeError` at this call site on every invocation that gets
past the method block. -/
def Deck.get_deck (d : Deck) (executioner : String) : Except PyError String :=
  let _header := "# Dakota Input File" ++ "\n# Usage:"
    ++ (if executioner.isEmpty then "" else "\n#   " ++ executioner) ++ "\n\n"
  match d._format_method with
  | .error e => .error e
  | .ok _method_block =>
      .error (.typeError
        "_format_interface() missing 1 required positional argument: concurrency")

/-! ## Concrete instances used by the literal scenarios -/

/-- A derivative-free optimization-family method as `Deck` reads it.  The
rendered method block is not read by any serialization settled with this
instance and is left empty. -/
def objective_method : Method :=
  { requires_gradients := false, requires_hessians := false,
    function_key := "objective_functions", class_name := "Optimize",
    to_string := "" }

/-- The deck of the spec's literal variables scenario, built by `add_variable`
calls in insertion order.  The numeric fields carry Python's renderings:
`str(1.0) = "1.0"`, `str(-1.234e6) = "-1234000.0"`, `str(1e-05) = "1e-05"`,
`str(-3.33) = "-3.33"`, `str(0.33) = "0.33"`. -/
def example_deck : Deck :=
  ((((Deck.make objective_method ["f"]).add_variable
      (Variable.normalUncertain "nuv" "1.0" "0.05")).1.add_variable
      (Variable.normalUncertain "NormalVariable" "-1234000.0" "1e-05")).1.add_variable
      (Variable.uniformUncertain "u" "-3.33" "0.33")).1

/-- The `Deck`-facing profile of `OptppCgOptimize`: a conjugate-gradient
method requiring gradients but not Hessians. -/
def optpp_cg_profile : Method :=
  { requires_gradients := true, requires_hessians := false,
    function_key := "objective_functions", class_name := "OptppCgOptimize",
    to_string := "" }

/-- A `Gradients` instance with `gradient_type = DERIVATIVE_NUMERIC`, as in
the repository's own deck test. -/
def numerical_gradients : Gradients :=
  { derivative_type := some "numerical", method_source := none,
    interval_type := none, fd_step_size := [], id_numerical := [],
    id_analytic := [] }

/-- A deck with a gradient-requiring method and no derivative settings. -/
def optpp_cg_deck : Deck := Deck.make optpp_cg_profile ["f"]

/-- The same deck after assigning a `Gradients` instance (the `gradients`
property setter stores the instance after an `isinstance` check). -/
def optpp_cg_deck_with_gradients : Deck :=
  { optpp_cg_deck with gradients := some numerical_gradients }

set_option maxRecDepth 10000

/-! ## Theorems for the claims -/

/-- C1: for a deck holding, in insertion order, normal-uncertain `nuv`
(mean 1.0, std 0.05), normal-uncertain `NormalVariable` (mean −1234000.0,
std 1e-05) and uniform-uncertain `u` (lower −3.33, upper 0.33) and no state
variables, `Deck._format_variables` returns exactly the claimed text: the
state sub-block is skipped, each kind gets a `<block_name>  <count>` header,
each field row is the field name left-justified to 16 characters followed by
each value string left-justified to 2 more than that variable's longest value
string, with trailing whitespace stripped from every row. -/
theorem variables_block_literal_scenario :
    example_deck._format_variables
      = "variables\n\n\tnormal_uncertain  2\n\t\tdescriptors     \"nuv\"   \"NormalVariable\"\n\t\tmeans            1.0     -1234000.0\n\t\tstd_deviations   0.05    1e-05\n\n\tuniform_uncertain  1\n\t\tdescriptors     \"u\"\n\t\tlower_bounds     -3.33\n\t\tupper_bounds     0.33\n" := by
  decide

/-- C2: on a deck whose method requires gradients, `get_deck` with no
`Gradients` instance raises the missing-derivatives `ValueError` from
`_format_method`; but with a `Gradients` instance assigned, `get_deck` does
NOT return the deck string as claimed: it raises `TypeError`, because
`deck.py` line 239 calls `self._format_interface(asynchronous, concurrency)`
while `_format_interface` has three required parameters — the claim's success
half describes the evident intent (the repository's own `test_echo` expects
`get_deck` to succeed) and the code contradicts it. -/
theorem get_deck_gating_then_typeerror :
    optpp_cg_deck.get_deck ""
      = .error (.valueError "Method OptppCgOptimize requires gradients to operate.") ∧
    optpp_cg_deck_with_gradients.get_deck ""
      = .error (.typeError
          "_format_interface() missing 1 required positional argument: concurrency") :=
  ⟨rfl, rfl⟩

/-- C3: for a deck whose function list is exactly `["f"]` and whose gradients
and Hessians are unset, `Deck._format_responses` returns exactly the claimed
text: the count line keyed by the method's `function_key`
(`objective_functions`, modelled from the spec since the attribute is not
defined in the available sources), the aligned `descriptors` line, and the two
no-derivative sentinel lines. -/
theorem responses_block_literal_scenario :
    example_deck._format_responses
      = "responses\n\tobjective_functions  1\n\tdescriptors          f\n\tno_gradients\n\tno_hessians\n" := by
  decide

/-- C4: for a `LatinHypercubeSampling` constructed with `samples = N > 0`, the
first no-argument `add_refinement` appends exactly `N`; on any state whose
last appended refinement is `r`, a no-argument call appends exactly `2*r`; and
an explicit value different from the required next value raises and appends
nothing. -/
theorem lhs_refinement_law (N seed : Int) (hN : 0 < N) :
    LatinHypercubeSampling.make N seed = .ok ⟨N, seed, []⟩ ∧
    LatinHypercubeSampling.add_refinement ⟨N, seed, []⟩ none = .ok ⟨N, seed, [N]⟩ ∧
    (∀ (m : LatinHypercubeSampling) (rs : List Int) (r : Int),
        m.refinements = rs ++ [r] →
        m.add_refinement none
          = .ok { m with refinements := m.refinements ++ [2 * r] }) ∧
    (∀ (m : LatinHypercubeSampling) (v : Int), v ≠ m.next_allowed →
        m.add_refinement (some v) = .error (.valueError
          "LHS Refinement Samples must be exactly double the previous number of samples.")) := by
  refine ⟨?_, ?_, ?_, ?_⟩
  · simp [LatinHypercubeSampling.make, hN]
  · simp [LatinHypercubeSampling.add_refinement, LatinHypercubeSampling.next_allowed]
  · intro m rs r h
    simp [LatinHypercubeSampling.add_refinement, LatinHypercubeSampling.next_allowed, h]
  · intro m v h
    simp [LatinHypercubeSampling.add_refinement, h]

/-- Witness for C4 at `samples = 400`, `seed = 42`. -/
theorem lhs_refinement_law_witness :
    LatinHypercubeSampling.make 400 42 = .ok ⟨400, 42, []⟩ ∧
    LatinHypercubeSampling.add_refinement ⟨400, 42, []⟩ none = .ok ⟨400, 42, [400]⟩ :=
  ⟨(lhs_refinement_law 400 42 (by decide)).1, (lhs_refinement_law 400 42 (by decide)).2.1⟩

/-- C5: on any deck whose registered keys all passed descriptor validation
(as every key added through `add_variable` has), adding a variable whose key
already exists fails with the duplicate-key assertion and returns the deck
unchanged: key set, per-kind dictionaries and all lookups are untouched. -/
theorem duplicate_key_add_rejected (d : Deck) (var : Variable)
    (hwf : ∀ k ∈ d.all_variable_keys, validDescriptor k = true)
    (hdup : var.key ∈ d.all_variable_keys) :
    d.add_variable var = (d, some (.assertionError (dupMsg var.key))) := by
  have hv : validDescriptor var.key = true := hwf _ hdup
  simp [Deck.add_variable, hv, hdup]

/-- Witness for C5: re-adding key `u` to the literal-scenario deck. -/
theorem duplicate_key_add_rejected_witness :
    example_deck.add_variable (Variable.normalUncertain "u" "0.0" "1.0")
      = (example_deck, some (.assertionError (dupMsg "u"))) :=
  duplicate_key_add_rejected example_deck (Variable.normalUncertain "u" "0.0" "1.0")
    (by decide) (by decide)

/-- Helper: a successful bound assignment leaves the element equal to the
midpoint of the resulting bounds (the setter ends in `__reset_element`). -/
theorem apply_op_success_midpoint (v : UniformUncertainVariable) (op : BoundOp)
    (h : (v.apply_op op).2 = none) :
    (v.apply_op op).1.element
      = some (0.5 * ((v.apply_op op).1.lower + (v.apply_op op).1.upper)) := by
  cases op with
  | setLower l =>
    by_cases hc : l ≥ v.upper
    · simp [UniformUncertainVariable.apply_op, UniformUncertainVariable.set_lower, hc] at h
    · simp only [UniformUncertainVariable.apply_op, UniformUncertainVariable.set_lower,
        if_neg hc, UniformUncertainVariable.reset_element]
      congr 1
      ring
  | setUpper u =>
    by_cases hc : u ≤ v.lower
    · simp [UniformUncertainVariable.apply_op, UniformUncertainVariable.set_upper, hc] at h
    · simp only [UniformUncertainVariable.apply_op, UniformUncertainVariable.set_upper,
        if_neg hc, UniformUncertainVariable.reset_element]
      congr 1
      ring

/-- C6: after any non-empty sequence of successful bound assignments on a
uniform-uncertain variable, the element equals `0.5 * (lower + upper)`;
moreover an assignment violating `lower < upper` raises a `ValueError` and
leaves bounds and element unchanged. -/
theorem uniform_midpoint_invariant :
    (∀ (v : UniformUncertainVariable) (ops : List BoundOp), ops ≠ [] →
        ops_succeed v ops →
        (run_ops v ops).element
          = some (0.5 * ((run_ops v ops).lower + (run_ops v ops).upper))) ∧
    (∀ (v : UniformUncertainVariable) (l : ℚ), l ≥ v.upper →
        v.set_lower l = (v, some (.valueError "lower must be < upper."))) ∧
    (∀ (v : UniformUncertainVariable) (u : ℚ), u ≤ v.lower →
        v.set_upper u = (v, some (.valueError "upper must be > lower."))) := by
  refine ⟨?_, ?_, ?_⟩
  · intro v ops
    induction ops generalizing v with
    | nil => intro hne _; exact absurd rfl hne
    | cons op rest ih =>
      intro _ hsuc
      obtain ⟨h1, h2⟩ := hsuc
      cases rest with
      | nil =>
        simpa only [run_ops] using apply_op_success_midpoint v op h1
      | cons op2 rest2 =>
        simpa only [run_ops] using ih (v.apply_op op).1 (by simp) h2
  · intro v l h
    simp [UniformUncertainVariable.set_lower, h]
  · intro v u h
    simp [UniformUncertainVariable.set_upper, h]

/-- Witness for C6: one successful lower-bound assignment and one rejected
one, on concrete variables. -/
theorem uniform_midpoint_invariant_witness :
    (run_ops (UniformUncertainVariable.make "u" 0 1) [BoundOp.setLower (-1)]).element
      = some (0.5 * ((run_ops (UniformUncertainVariable.make "u" 0 1)
            [BoundOp.setLower (-1)]).lower
          + (run_ops (UniformUncertainVariable.make "u" 0 1)
            [BoundOp.setLower (-1)]).upper)) ∧
    (UniformUncertainVariable.make "u" 0 1).set_lower 5
      = (UniformUncertainVariable.make "u" 0 1,
         some (.valueError "lower must be < upper.")) :=
  ⟨uniform_midpoint_invariant.1 (UniformUncertainVariable.make "u" 0 1)
      [BoundOp.setLower (-1)] (by simp) ⟨by decide, trivial⟩,
   uniform_midpoint_invariant.2.1 (UniformUncertainVariable.make "u" 0 1) 5 (by decide)⟩

/-- C7: a `Gradients`/`Hessians` instance constructed with the `"no"` sentinel
stores `None` as its derivative type and serializes to exactly the single
(tab-indented) line `no_gradients` / `no_hessians`, whatever its other fields
hold — no id lists, `method_source`, `interval_type`, step-size or
step-scaling lines. -/
theorem none_sentinel_derivatives_single_line :
    (∀ (ms it : Option String) (fd : List String) (idn ida : List Int) (g : Gradients),
        Gradients.make (some "no") ms it fd idn ida = .ok g →
        g.derivative_type = none ∧ g.to_string = "\tno_gradients") ∧
    (∀ (it ss qa : Option String) (fd : List String) (idn ida idq : List Int)
        (damped : Bool) (h : Hessians),
        Hessians.make (some "no") it ss qa fd idn ida idq damped = .ok h →
        h.derivative_type = none ∧ h.to_string = "\tno_hessians") := by
  constructor
  · intro ms it fd idn ida g hmk
    simp only [Gradients.make] at hmk
    split at hmk
    · cases hmk
    · split at hmk
      · cases hmk
      · split at hmk
        · cases hmk
        · simp only [Except.ok.injEq] at hmk
          subst hmk
          constructor
          · simp [DERIVATIVE_NONE]
          · simp [Gradients.to_string, truthyStr, DERIVATIVE_NONE, Derivatives._no]
  · intro it ss qa fd idn ida idq damped h hmk
    simp only [Hessians.make, bind, Except.bind, pure, Except.pure] at hmk
    split at hmk
    · cases hmk
    · split at hmk
      · cases hmk
      · split at hmk
        · cases hmk
        · split at hmk
          · cases hmk
          · split at hmk
            · split at hmk
              · cases hmk
              · split at hmk
                · cases hmk
                · simp only [Except.ok.injEq] at hmk
                  subst hmk
                  exact ⟨by simp [DERIVATIVE_NONE],
                    by simp [Hessians.to_string, truthyStr, DERIVATIVE_NONE, Derivatives._no]⟩
            · split at hmk
              · cases hmk
              · split at hmk
                · cases hmk
                · simp only [Except.ok.injEq] at hmk
                  subst hmk
                  exact ⟨by simp [DERIVATIVE_NONE],
                    by simp [Hessians.to_string, truthyStr, DERIVATIVE_NONE, Derivatives._no]⟩

/-- Witness for C7: the sentinel-constructed instances with no optional fields
render to the single sentinel lines. -/
theorem none_sentinel_derivatives_single_line_witness :
    Gradients.to_string
        { derivative_type := none, method_source := none, interval_type := none,
          fd_step_size := [], id_numerical := [], id_analytic := [] }
      = "\tno_gradients" ∧
    Hessians.to_string
        { derivative_type := none, interval_type := none, step_scaling := none,
          quasi_approximation := none, fd_step_size := [], id_numerical := [],
          id_analytic := [], id_quasi := [], damped := false }
      = "\tno_hessians" :=
  ⟨(none_sentinel_derivatives_single_line.1 none none [] [] []
      { derivative_type := none, method_source := none, interval_type := none,
        fd_step_size := [], id_numerical := [], id_analytic := [] } rfl).2,
   (none_sentinel_derivatives_single_line.2 none none none [] [] [] [] false
      { derivative_type := none, interval_type := none, step_scaling := none,
        quasi_approximation := none, fd_step_size := [], id_numerical := [],
        id_analytic := [], id_quasi := [], damped := false } rfl).2⟩

/-- C8: `UniformUncertainVariable.__init__` accepts every pair of bounds —
including `lower >= upper`, with no ordering validation — and leaves the
element `None`, not the midpoint; the midpoint is first computed when a bound
setter is subsequently invoked. -/
theorem uniform_construction_unvalidated (k : String) (l u : ℚ) :
    (UniformUncertainVariable.make k l u).element = none ∧
    (∀ l2 : ℚ, l2 < u →
      ((UniformUncertainVariable.make k l u).set_lower l2).1.element
        = some (0.5 * (u + l2))) ∧
    (∀ u2 : ℚ, l < u2 →
      ((UniformUncertainVariable.make k l u).set_upper u2).1.element
        = some (0.5 * (u2 + l))) := by
  refine ⟨rfl, ?_, ?_⟩
  · intro l2 hlt
    have hc : ¬ (l2 ≥ u) := not_le.2 hlt
    simp [UniformUncertainVariable.set_lower, UniformUncertainVariable.make,
      UniformUncertainVariable.reset_element, hc]
  · intro u2 hlt
    have hc : ¬ (u2 ≤ l) := not_le.2 hlt
    simp [UniformUncertainVariable.set_upper, UniformUncertainVariable.make,
      UniformUncertainVariable.reset_element, hc]

/-- Witness for C8: construction succeeds with inverted bounds (1 > 0) and
yields element `None`; a later setter call computes the midpoint. -/
theorem uniform_construction_unvalidated_witness :
    (UniformUncertainVariable.make "x" 1 0).element = none ∧
    ((UniformUncertainVariable.make "x" (-1) 3).set_lower 0).1.element
      = some (0.5 * (3 + 0)) :=
  ⟨(uniform_construction_unvalidated "x" 1 0).1,
   (uniform_construction_unvalidated "x" (-1) 3).2.1 0 (by norm_num)⟩

/-- C9: adding a variable whose concrete class is outside `TYPED_VARIABLES`
(a `DesignVariable`) under a fresh valid key raises `KeyError`, but only after
the key was inserted into the flat key set: afterwards iterating the deck
yields the key, indexing the deck at the key still fails, and re-adding any
variable under that key fails as a duplicate. -/
theorem design_variable_add_mutates_registry (d : Deck) (k lo hi ini : String)
    (var2 : Variable)
    (hvalid : validDescriptor k = true)
    (hfresh : k ∉ d.all_variable_keys)
    (hlookup : d.find? k = none)
    (hkey2 : var2.key = k) :
    d.add_variable (.design k lo hi ini)
        = ({ d with all_variable_keys := d.all_variable_keys ++ [k] },
           some (.keyError "DesignVariable")) ∧
    k ∈ (d.add_variable (.design k lo hi ini)).1.all_variable_keys ∧
    (d.add_variable (.design k lo hi ini)).1.find? k = none ∧
    (d.add_variable (.design k lo hi ini)).1.add_variable var2
        = ((d.add_variable (.design k lo hi ini)).1,
           some (.assertionError (dupMsg k))) := by
  have h1 : d.add_variable (.design k lo hi ini)
      = ({ d with all_variable_keys := d.all_variable_keys ++ [k] },
         some (.keyError "DesignVariable")) := by
    simp [Deck.add_variable, Variable.key, hvalid, hfresh]
  refine ⟨h1, ?_, ?_, ?_⟩
  · rw [h1]; simp
  · rw [h1]; exact hlookup
  · rw [h1]
    simp [Deck.add_variable, hkey2, hvalid]

/-- Witness for C9: a design variable `dv` added to the literal-scenario deck
lands in the key set but nowhere else. -/
theorem design_variable_add_mutates_registry_witness :
    "dv" ∈ (example_deck.add_variable
        (Variable.design "dv" "0.0" "1.0" "0.5")).1.all_variable_keys ∧
    (example_deck.add_variable
        (Variable.design "dv" "0.0" "1.0" "0.5")).1.find? "dv" = none :=
  ⟨(design_variable_add_mutates_registry example_deck "dv" "0.0" "1.0" "0.5"
      (Variable.state "dv" false "0") (by decide) (by decide) (by decide) rfl).2.1,
   (design_variable_add_mutates_registry example_deck "dv" "0.0" "1.0" "0.5"
      (Variable.state "dv" false "0") (by decide) (by decide) (by decide) rfl).2.2.1⟩

/-- C10: `_check_input` returns any falsy candidate (`None` or the empty
string — the candidate values arising at its call sites) unchanged with no
membership or prerequisite check at all; consequently `JegaOptimize`
construction accepts `replacement_type = ""` and `crossover_type = ""`
without raising and simply stores them. -/
theorem falsy_enum_candidate_unchecked :
    (∀ (attr : String) (allowed : List String) (enforce_lowercase : Bool)
        (populated_prereqs : List (String × Bool)) (candidate : Option String),
        truthyStr candidate = false →
        _check_input attr allowed candidate enforce_lowercase populated_prereqs
          = .ok candidate) ∧
    JegaOptimize.make none none none none 42 (some "") none none (some "")
        none none none none none none
      = .ok { max_iterations := none, max_function_evaluations := none,
              convergence_tolerance := none, population_size := none, seed := 42,
              flat_file_path := none, replacement_type := some "",
              convergence_type := none, initialization_type := none,
              crossover_type := some "", crossover_rate := none,
              num_parents := none, num_offspring := none, mutation_type := none,
              mutation_rate := none } := by
  constructor
  · intro attr allowed el prereqs c h
    simp [_check_input, h]
  · rfl

/-- Witness for C10: the empty string passes `_check_input` unchanged even
against a set it does not belong to and with an unmet prerequisite. -/
theorem falsy_enum_candidate_unchecked_witness :
    _check_input "replacement_type" JegaOptimize.replacement_types (some "") true
        [("flat_file_path", false)] = .ok (some "") :=
  falsy_enum_candidate_unchecked.1 "replacement_type" JegaOptimize.replacement_types
    true [("flat_file_path", false)] (some "") rfl
